import Mathlib

/-!
Verification of the basketball-hoops scraping/persistence core.

Shallow embedding of:
  * `src/configs/schema.py` — `normalize_string`, `clean_for_id` and the
    `generate_id` family (Season / Schedule / Boxscore key generation);
  * `src/scraping/basketball_reference_scraper.py` — the `fetch_data`
    retry loop, `_parse_game_date` with the schedule row filter, and the
    per-URL cache of `scrape_boxscore_tables`;
  * `src/storage/database_store.py` — `_write_dataframe` chunking, the
    `save_seasons` / `save_schedules` / `save_boxscores` wrappers and
    `_initialize_engine_with_fallback`.

Python strings are modelled as `List Char` (Unicode codepoints, matching
Python's `str`).  External library behaviour (HTTP responses, pandas
`to_datetime`, the SQL engine) is passed in as explicit environment
functions, so every definition stays executable.
-/

namespace BasketballHoops

/-- Python `str` modelled as a list of Unicode codepoints. -/
abbrev Str := List Char

/-! ### String normalization (`src/configs/schema.py`) -/

/-- Model of the Unicode NFD decomposition used by Python's
`unicodedata.normalize('NFD', text)` for the Latin-1 accented letters
(the range the scraped site produces); characters outside the table are
left undecomposed, matching NFD on unaccented characters.  Each entry maps
a precomposed letter to its base letter followed by a combining mark
(U+0300 grave, U+0301 acute, U+0302 circumflex, U+0303 tilde,
U+0308 diaeresis, U+0327 cedilla). -/
def nfdTable : List (Char × List Char) :=
  [('à', ['a', '̀']), ('á', ['a', '́']), ('â', ['a', '̂']),
   ('ã', ['a', '̃']), ('ä', ['a', '̈']), ('ç', ['c', '̧']),
   ('è', ['e', '̀']), ('é', ['e', '́']), ('ê', ['e', '̂']),
   ('ë', ['e', '̈']), ('ì', ['i', '̀']), ('í', ['i', '́']),
   ('î', ['i', '̂']), ('ï', ['i', '̈']), ('ñ', ['n', '̃']),
   ('ò', ['o', '̀']), ('ó', ['o', '́']), ('ô', ['o', '̂']),
   ('õ', ['o', '̃']), ('ö', ['o', '̈']), ('ù', ['u', '̀']),
   ('ú', ['u', '́']), ('û', ['u', '̂']), ('ü', ['u', '̈']),
   ('ý', ['y', '́']), ('ÿ', ['y', '̈']),
   ('À', ['A', '̀']), ('Á', ['A', '́']), ('Ä', ['A', '̈']),
   ('Ç', ['C', '̧']), ('É', ['E', '́']), ('Í', ['I', '́']),
   ('Ñ', ['N', '̃']), ('Ö', ['O', '̈']), ('Ó', ['O', '́']),
   ('Ü', ['U', '̈']), ('Ú', ['U', '́'])]

/-- NFD decomposition of a single character (table lookup, identity
outside the table). -/
def nfdChar (c : Char) : List Char :=
  match nfdTable.lookup c with
  | some d => d
  | none => [c]

/-- Concatenated character-wise expansion (local `flatMap`). -/
def expandChars (f : Char → List Char) : Str → Str
  | [] => []
  | c :: rest => f c ++ expandChars f rest

/-- `unicodedata.normalize('NFD', text)`. -/
def pyNFD (s : Str) : Str := expandChars nfdChar s

/-- `.encode('ascii', 'ignore').decode('ascii')` — drop all non-ASCII
codepoints (in particular the combining marks NFD split off). -/
def asciiEncodeIgnore (s : Str) : Str := s.filter (fun c => c.toNat < 128)

/-- `normalize_string` from `src/configs/schema.py`:
NFD-decompose, then strip everything non-ASCII. -/
def normalize_string (text : Str) : Str :=
  if text = [] then []
  else asciiEncodeIgnore (pyNFD text)

/-- Python `c.isalnum()` on the ASCII characters that survive
`normalize_string` (ASCII letters and digits). -/
def pyIsAlnum (c : Char) : Bool := c.isAlphanum

/-- `.replace(" ", "_").replace("-", "_")` — single-character
replacements, hence a character-wise map. -/
def replaceSpaceHyphen (s : Str) : Str :=
  s.map (fun c => if c = ' ' ∨ c = '-' then '_' else c)

/-- The intermediate `cleaned` value of `clean_for_id` just before the
optional truncation: normalize Unicode, replace spaces/hyphens with
underscores, keep only alphanumerics and underscores. -/
def cleanCore (text : Str) : Str :=
  (replaceSpaceHyphen (normalize_string text)).filter
    (fun c => pyIsAlnum c || c = '_')

/-- `cleaned[:max_length] if max_length > 0 else cleaned`. -/
def truncateIf (maxLength : Nat) (s : Str) : Str :=
  if maxLength > 0 then s.take maxLength else s

/-- The fixed sentinel `"Unknown"`. -/
def unknownId : Str := "Unknown".data

/-- `clean_for_id(text, max_length=0)` from `src/configs/schema.py`. -/
def clean_for_id (text : Str) (maxLength : Nat := 0) : Str :=
  if text = [] then unknownId
  else
    let cleaned := truncateIf maxLength (cleanCore text)
    if cleaned = [] then unknownId else cleaned

/-! ### Composite identifier generation (`src/configs/schema.py`) -/

/-- The `"_"` separator of the f-string templates. -/
def usep : Str := "_".data

/-- The `"_vs_"` separator of the GameID template. -/
def vsSep : Str := "_vs_".data

/-- `SeasonColumns.generate_id(season, league)`:
`f"{clean_for_id(season)}_{clean_for_id(league)}"`. -/
def SeasonColumns.generate_id (season league : Str) : Str :=
  clean_for_id season ++ usep ++ clean_for_id league

/-- `str(game_date).replace("-", "").replace(" ", "")[:8]` — the date
component of the GameID (single-character deletions are filters). -/
def cleanGameDate (gameDate : Str) : Str :=
  ((gameDate.filter (fun c => c ≠ '-')).filter (fun c => c ≠ ' ')).take 8

/-- `ScheduleColumns.generate_id(game_date, home_team, visitor_team,
season, league)` from `src/configs/schema.py`. -/
def ScheduleColumns.generate_id
    (gameDate homeTeam visitorTeam season league : Str) : Str :=
  cleanGameDate gameDate ++ usep ++ clean_for_id homeTeam 15 ++ vsSep ++
    clean_for_id visitorTeam 15 ++ usep ++ clean_for_id season ++ usep ++
    clean_for_id league 15

/-- Modelled from the spec: the variant of the GameID that claim C8
describes, in which each participant name is truncated to 15 characters
BEFORE the text normalization is applied (clean-of-truncation), instead
of the source's truncation-of-clean.  Used only to compare against
`ScheduleColumns.generate_id`. -/
def ScheduleColumns.generate_id_truncFirst
    (gameDate homeTeam visitorTeam season league : Str) : Str :=
  cleanGameDate gameDate ++ usep ++ clean_for_id (homeTeam.take 15) 0 ++ vsSep ++
    clean_for_id (visitorTeam.take 15) 0 ++ usep ++ clean_for_id season ++ usep ++
    clean_for_id league 15

/-- `BoxscoreColumns.generate_id(game_id, player_name, team)`. -/
def BoxscoreColumns.generate_id (gameId playerName team : Str) : Str :=
  gameId ++ usep ++ clean_for_id playerName 25 ++ usep ++ clean_for_id team 15

/-- `"a/b/c".split("/")` on character lists. -/
def splitOnChar (sep : Char) : Str → List Str
  | [] => [[]]
  | c :: rest =>
    if c = sep then [] :: splitOnChar sep rest
    else
      match splitOnChar sep rest with
      | [] => [[c]]
      | h :: t => (c :: h) :: t

/-- `s.replace(pat, "")` for a fixed non-empty pattern: left-to-right,
non-overlapping removal of every occurrence.  Fuel-based structural
recursion (fuel = length of the string) so the kernel can evaluate it. -/
def eraseAllFuel (pat : Str) : Nat → Str → Str
  | _, [] => []
  | 0, s => s
  | fuel + 1, c :: rest =>
    if pat ≠ [] ∧ pat.isPrefixOf (c :: rest) then
      eraseAllFuel pat fuel ((c :: rest).drop pat.length)
    else c :: eraseAllFuel pat fuel rest

/-- `s.replace(pat, "")`. -/
def eraseAll (pat s : Str) : Str := eraseAllFuel pat s.length s

/-- `BoxscoreColumns.generate_game_id_from_url(date_url, season, league)`
from `src/configs/schema.py`. -/
def BoxscoreColumns.generate_game_id_from_url
    (dateUrl season league : Str) : Str :=
  if dateUrl = [] then "UNKNOWN_GAME".data
  else
    let urlKey :=
      if dateUrl.contains '/' then
        eraseAll ".html".data ((splitOnChar '/' dateUrl).getLastD [])
      else dateUrl
    urlKey ++ usep ++ clean_for_id season ++ usep ++ clean_for_id league 15

/-! ### Resilient fetcher (`BasketballReferenceScraper.fetch_data`) -/

/-- What one HTTP attempt can observe: a response with a status code and
body text, or a transport-level `requests.RequestException` (identified
by a numeric tag). -/
inductive AttemptOutcome where
  | response (statusCode : Nat) (text : Str)
  | transportErr (tag : Nat)
deriving DecidableEq

/-- `RETRY_STATUS_CODES = frozenset({429, 500, 502, 503, 504})`. -/
def RETRY_STATUS_CODES : List Nat := [429, 500, 502, 503, 504]

/-- Result of `fetch_data`: the returned text with the number of request
attempts made, or one of the two `FetchError` raises — the immediate
non-retryable-status raise, or the exhausted-retries raise whose `cause`
models `raise ... from last_exc` (the last transport-level exception
stored in `last_exc`; `none` when no transport error occurred). -/
inductive FetchResult where
  | ok (text : Str) (attemptsMade : Nat)
  | errNonRetryable (statusCode : Nat) (attemptsMade : Nat)
  | errExhausted (attemptsMade : Nat) (cause : Option Nat)
deriving DecidableEq

/-- The `for attempt in range(1, max_retries + 1)` loop of `fetch_data`.
`outcome i` is what attempt number `i` observes; `made` counts attempts
already made; `lastExc` is the running `last_exc`.  Sleeps are dropped
(pure timing). -/
def fetchLoop (outcome : Nat → AttemptOutcome) :
    Nat → Nat → Option Nat → FetchResult
  | 0, made, lastExc => .errExhausted made lastExc
  | remaining + 1, made, lastExc =>
    match outcome (made + 1) with
    | .response code t =>
      if code = 200 then .ok t (made + 1)
      else if code ∈ RETRY_STATUS_CODES then fetchLoop outcome remaining (made + 1) lastExc
      else .errNonRetryable code (made + 1)
    | .transportErr e => fetchLoop outcome remaining (made + 1) (some e)

/-- `fetch_data` with `max_retries = maxRetries`, run against the attempt
outcomes `outcome`. -/
def fetch_data (outcome : Nat → AttemptOutcome) (maxRetries : Nat) : FetchResult :=
  fetchLoop outcome maxRetries 0 none

/-- An outcome the loop retries on: a status in `RETRY_STATUS_CODES`, or
a transport-level error. -/
def retryableOutcome : AttemptOutcome → Bool
  | .response code _ => decide (code ∈ RETRY_STATUS_CODES)
  | .transportErr _ => true

/-- The value of `last_exc` after attempts `made+1 .. made+n` (transport
errors overwrite the accumulator; HTTP statuses do not touch it). -/
def lastTransportAux (outcome : Nat → AttemptOutcome) :
    Nat → Nat → Option Nat → Option Nat
  | 0, _, acc => acc
  | n + 1, made, acc =>
    lastTransportAux outcome n (made + 1)
      (match outcome (made + 1) with
       | .transportErr e => some e
       | _ => acc)

/-- The last transport-level error among attempts `1 .. n`, if any. -/
def lastTransportErr (outcome : Nat → AttemptOutcome) (n : Nat) : Option Nat :=
  lastTransportAux outcome n 0 none

/-! ### Incremental persistence (`src/storage/database_store.py`) -/

/-- The `if_exists` argument of `DataFrame.to_sql`. -/
inductive WriteMode where
  | replace
  | append
deriving DecidableEq

/-- Effect of one `chunk.to_sql(..., if_exists=mode)` call on the backing
table's contents: `replace` drops the table and leaves only the chunk,
`append` adds the chunk at the end. -/
def toSql {ρ : Type} (table chunk : List ρ) : WriteMode → List ρ
  | .replace => chunk
  | .append => table ++ chunk

/-- The chunking loop of `_write_dataframe`
(`for start in range(0, total_rows, self.chunk_size)`): the first chunk
uses the caller's mode, every later chunk uses `append`; `written`
accumulates the row count.  Fuel-based structural recursion (fuel =
remaining row count suffices whenever `chunkSize ≥ 1`, which
`DatabaseStore.__init__` guarantees via `chunk_size or DEFAULT_CHUNK_SIZE`). -/
def writeChunksFuel {ρ : Type} (chunkSize : Nat) :
    Nat → List ρ → List ρ → WriteMode → Nat → List ρ × Nat
  | _, table, [], _, written => (table, written)
  | 0, table, _, _, written => (table, written)
  | fuel + 1, table, r :: rest, mode, written =>
    let chunk := (r :: rest).take chunkSize
    writeChunksFuel chunkSize fuel (toSql table chunk mode)
      ((r :: rest).drop chunkSize) .append (written + chunk.length)

/-- `DatabaseStore._write_dataframe(df, table, if_exists)`: empty input is
a no-op returning 0; otherwise write in chunks.  Returns the final table
contents and `written`. -/
def write_dataframe {ρ : Type} (table df : List ρ) (chunkSize : Nat)
    (ifExists : WriteMode) : List ρ × Nat :=
  if df.isEmpty then (table, 0)
  else writeChunksFuel chunkSize df.length table df ifExists 0

/-- A raw seasons row: the two business fields the SeasonID reads. -/
structure SeasonRow where
  season : Str
  league : Str
deriving DecidableEq

/-- A seasons row as persisted, with the generated primary key first. -/
structure KeyedSeasonRow where
  seasonId : Str
  base : SeasonRow
deriving DecidableEq

/-- The ID-generation `df.apply` of `save_seasons`. -/
def addSeasonId (r : SeasonRow) : KeyedSeasonRow :=
  { seasonId := SeasonColumns.generate_id r.season r.league, base := r }

/-- `DatabaseStore.save_seasons(df, if_exists)`: empty guard, generate
`SeasonID`, reorder keys first, chunked write. -/
def save_seasons (table : List KeyedSeasonRow) (df : List SeasonRow)
    (chunkSize : Nat) (ifExists : WriteMode) : List KeyedSeasonRow × Nat :=
  if df.isEmpty then (table, 0)
  else write_dataframe table (df.map addSeasonId) chunkSize ifExists

/-- A raw schedules row: the business fields the GameID/SeasonID read. -/
structure ScheduleRow where
  gameDate : Str
  teamNameHome : Str
  teamNameVisitors : Str
  season : Str
  leagueName : Str
deriving DecidableEq

/-- A schedules row as persisted, with primary and foreign key first. -/
structure KeyedScheduleRow where
  gameId : Str
  seasonId : Str
  base : ScheduleRow
deriving DecidableEq

/-- The ID-generation `df.apply` calls of `save_schedules`
(`ScheduleColumns.generate_season_id` delegates to
`SeasonColumns.generate_id`). -/
def addScheduleIds (r : ScheduleRow) : KeyedScheduleRow :=
  { gameId := ScheduleColumns.generate_id r.gameDate r.teamNameHome
      r.teamNameVisitors r.season r.leagueName,
    seasonId := SeasonColumns.generate_id r.season r.leagueName,
    base := r }

/-- `DatabaseStore.save_schedules(df, if_exists)`. -/
def save_schedules (table : List KeyedScheduleRow) (df : List ScheduleRow)
    (chunkSize : Nat) (ifExists : WriteMode) : List KeyedScheduleRow × Nat :=
  if df.isEmpty then (table, 0)
  else write_dataframe table (df.map addScheduleIds) chunkSize ifExists

/-- A raw boxscores row: the fields the BoxscoreID/GameID read. -/
structure BoxscoreRow where
  playerName : Str
  team : Str
  dateUrl : Str
  season : Str
  league : Str
deriving DecidableEq

/-- A boxscores row as persisted, with primary and foreign key first. -/
structure KeyedBoxscoreRow where
  boxscoreId : Str
  gameId : Str
  base : BoxscoreRow
deriving DecidableEq

/-- The ID-generation `df.apply` calls of `save_boxscores` (GameID from
the date URL, then BoxscoreID from GameID, player and team). -/
def addBoxscoreIds (r : BoxscoreRow) : KeyedBoxscoreRow :=
  { boxscoreId := BoxscoreColumns.generate_id
      (BoxscoreColumns.generate_game_id_from_url r.dateUrl r.season r.league)
      r.playerName r.team,
    gameId := BoxscoreColumns.generate_game_id_from_url r.dateUrl r.season r.league,
    base := r }

/-- `DatabaseStore.save_boxscores(df, if_exists)`. -/
def save_boxscores (table : List KeyedBoxscoreRow) (df : List BoxscoreRow)
    (chunkSize : Nat) (ifExists : WriteMode) : List KeyedBoxscoreRow × Nat :=
  if df.isEmpty then (table, 0)
  else write_dataframe table (df.map addBoxscoreIds) chunkSize ifExists

/-! ### Schedule date parsing and row filtering
(`_parse_game_date` / `scrape_league_schedule`) -/

/-- Python whitespace stripped by `str.strip()`. -/
def pyIsSpace (c : Char) : Bool :=
  c = ' ' ∨ c = '\t' ∨ c = '\n' ∨ c = '\r' ∨ c = '\x0b' ∨ c = '\x0c'

/-- `value.strip()`. -/
def pyStrip (s : Str) : Str :=
  ((s.dropWhile pyIsSpace).reverse.dropWhile pyIsSpace).reverse

/-- A word character for the `\b` boundaries of the date regex (ASCII
model of `\w`; the scraped date cells are ASCII). -/
def isWordChar (c : Char) : Bool := c.isAlphanum || c = '_'

/-- After the regex has consumed one digit, can `\d{1,2}\b` complete on
`rest`? One digit followed by a boundary, or a second digit followed by a
boundary. -/
def digitTokenTail : Str → Bool
  | [] => true
  | d :: ds =>
    if d.isDigit then
      match ds with
      | [] => true
      | e :: _ => !(isWordChar e)
    else !(isWordChar d)

/-- Scan for `\b\d{1,2}\b`; `atBoundary` records whether the previous
character (if any) was a non-word character. -/
def scanDigitToken : Bool → Str → Bool
  | _, [] => false
  | atBoundary, c :: rest =>
    (atBoundary && c.isDigit && digitTokenTail rest) ||
      scanDigitToken (!(isWordChar c)) rest

/-- `re.search(r"\b\d{1,2}\b", cleaned)`: the string contains a
standalone 1–2 digit number. -/
def hasShortDigitToken (s : Str) : Bool := scanDigitToken true s

/-- `BasketballReferenceScraper._parse_game_date(value)`.  `value = none`
models a non-string cell (NaN), rejected by the `isinstance` check.
`toDatetime` is the environment's `pd.to_datetime(_, errors='coerce')`
composed with `.normalize()`; it returns `none` for `NaT`. -/
def parse_game_date (toDatetime : Str → Option Nat) (value : Option Str) :
    Option Nat :=
  match value with
  | none => none
  | some s =>
    let cleaned := pyStrip s
    if cleaned = [] ∨ hasShortDigitToken cleaned = false then none
    else toDatetime cleaned

/-- A row of the extracted schedule table: its raw `Date` cell plus an
abstract payload standing for all other columns. -/
structure RawScheduleRow where
  dateCell : Option Str
  payload : Nat
deriving DecidableEq

/-- `df.loc[mask]`: keep the rows whose mask entry is `True`. -/
def maskSelect {α : Type} : List α → List Bool → List α
  | [], _ => []
  | _ :: _, [] => []
  | a :: as, b :: bs => if b then a :: maskSelect as bs else maskSelect as bs

/-- The row-dropping step of `scrape_league_schedule`:
`parsed_dates = df[Date].map(_parse_game_date)`,
`valid_mask = parsed_dates.notna()`, `df = df.loc[valid_mask]`. -/
def scheduleRowFilter (toDatetime : Str → Option Nat)
    (rows : List RawScheduleRow) : List RawScheduleRow :=
  maskSelect rows
    ((rows.map (fun r => parse_game_date toDatetime r.dateCell)).map Option.isSome)

/-! ### Per-run boxscore URL cache (`scrape_boxscore_tables`) -/

/-- A schedule row as seen by `scrape_boxscore_tables`: only its
`DateURL` cell matters for the fetch/cache behaviour (`none` models a
missing URL, skipped before any fetch). -/
structure BoxFetchRow where
  dateUrl : Option Str
deriving DecidableEq

/-- Fetch/cache state of one `scrape_boxscore_tables` run: `cache` is
`html_cache` (URL → parsed tables, insertion at the front models dict
update), `fetchLog` records every `fetch_data` invocation's URL in call
order, `skipped` is `skipped_dates`. -/
structure BoxScrapeState (β : Type) where
  cache : List (Str × β)
  fetchLog : List Str
  skipped : List Str
deriving DecidableEq

/-- `date_url in html_cache`. -/
def cacheFind {β : Type} : List (Str × β) → Str → Option β
  | [], _ => none
  | (k, v) :: rest, url => if k = url then some v else cacheFind rest url

/-- One iteration of the `for _, row in schedule_df.iterrows()` loop,
restricted to its fetch/cache effects.  `env url` is the outcome of
`fetch_data(url)` followed by `_parse_boxscore_tables`: `some tables` on
success, `none` when `fetch_data` raises a `ScraperError`.  On failure
the cache is NOT updated — only `skipped_dates` grows. -/
def boxScrapeStep {β : Type} (env : Str → Option β) (st : BoxScrapeState β)
    (row : BoxFetchRow) : BoxScrapeState β :=
  match row.dateUrl with
  | none => st
  | some url =>
    if (cacheFind st.cache url).isSome then st
    else
      match env url with
      | some tables =>
        { st with cache := (url, tables) :: st.cache,
                  fetchLog := st.fetchLog ++ [url] }
      | none =>
        { st with fetchLog := st.fetchLog ++ [url],
                  skipped := st.skipped ++ [url] }

/-- The fetch/cache trace of a whole `scrape_boxscore_tables` run. -/
def scrape_boxscore_fetches {β : Type} (env : Str → Option β)
    (rows : List BoxFetchRow) : BoxScrapeState β :=
  rows.foldl (boxScrapeStep env) ⟨[], [], []⟩

/-- Number of `fetch_data` invocations for `url` in a fetch log. -/
def fetchCount (url : Str) (log : List Str) : Nat :=
  (log.filter (fun u => u = url)).length

/-! ### Engine initialization with fallback
(`DatabaseStore._initialize_engine_with_fallback`) -/

/-- `self.primary_url.startswith("sqlite")`. -/
def startsWithSqlite (url : Str) : Bool := "sqlite".data.isPrefixOf url

/-- The engine state a successful initialization establishes:
`self.url` and `self.schema`. -/
structure EngineState where
  url : Str
  schema : Option Str
deriving DecidableEq

/-- The candidate list: the primary `(url, schema)`, then — only when the
primary URL is not already a SQLite URL — the fallback SQLite URL with
the schema cleared to `None`. -/
def candidateList (primaryUrl : Str) (schema : Option Str)
    (fallbackUrl : Str) : List (Str × Option Str) :=
  (primaryUrl, schema) ::
    (if startsWithSqlite primaryUrl then [] else [(fallbackUrl, none)])

/-- Result of initialization: an established engine, or the
`RuntimeError` raised after all candidates failed, carrying the chained
`last_exc` as its cause. -/
inductive InitResult where
  | ok (engine : EngineState)
  | runtimeError (cause : Option Nat)
deriving DecidableEq

/-- The candidate loop.  `connectErr url schema` is the environment's
outcome of `create_engine` plus `_ensure_schema`: `none` on success,
`some tag` for a raised `SQLAlchemyError`.  All candidates failing raises
`RuntimeError` chaining `last_exc`. -/
def initLoop (connectErr : Str → Option Str → Option Nat) :
    List (Str × Option Str) → Option Nat → InitResult
  | [], lastExc => .runtimeError lastExc
  | (url, sch) :: rest, _ =>
    match connectErr url sch with
    | none => .ok ⟨url, sch⟩
    | some e => initLoop connectErr rest (some e)

/-- `DatabaseStore._initialize_engine_with_fallback`. -/
def initialize_engine_with_fallback (connectErr : Str → Option Str → Option Nat)
    (primaryUrl : Str) (schema : Option Str) (fallbackUrl : Str) :
    InitResult :=
  initLoop connectErr (candidateList primaryUrl schema fallbackUrl) none

/-! ## Helper lemmas -/

theorem clean_for_id_zero_eq_cleanCore (s : Str) (h : cleanCore s ≠ []) :
    clean_for_id s 0 = cleanCore s := by
  have hs : s ≠ [] := by
    intro he
    subst he
    exact h rfl
  simp [clean_for_id, truncateIf, hs, h]

theorem take_ne_nil_of_ne_nil {l : Str} (n : Nat) (hn : 0 < n) (h : l ≠ []) :
    l.take n ≠ [] := by
  cases l with
  | nil => exact absurd rfl h
  | cons c rest =>
    cases n with
    | zero => omega
    | succ m => simp [List.take]

theorem clean_for_id_pos_eq_take (s : Str) (h : cleanCore s ≠ []) :
    clean_for_id s 15 = (cleanCore s).take 15 := by
  have hs : s ≠ [] := by
    intro he
    subst he
    exact h rfl
  have htk : (cleanCore s).take 15 ≠ [] := take_ne_nil_of_ne_nil 15 (by omega) h
  simp [clean_for_id, truncateIf, hs, htk]

theorem retry_code_ne_200 {code : Nat} (h : code ∈ RETRY_STATUS_CODES) : code ≠ 200 := by
  simp [RETRY_STATUS_CODES] at h
  rcases h with h | h | h | h | h <;> omega

theorem fetchLoop_ok (outcome : Nat → AttemptOutcome) (t : Str) :
    ∀ (k remaining made : Nat) (le : Option Nat),
      (∀ i, made + 1 ≤ i → i ≤ made + k → retryableOutcome (outcome i) = true) →
      outcome (made + k + 1) = .response 200 t →
      k < remaining →
      fetchLoop outcome remaining made le = .ok t (made + k + 1) := by
  intro k
  induction k with
  | zero =>
    intro remaining made le _ h200 hlt
    cases remaining with
    | zero => omega
    | succ r => simp [fetchLoop, h200]
  | succ k ih =>
    intro remaining made le hret h200 hlt
    cases remaining with
    | zero => omega
    | succ r =>
      have hmem : retryableOutcome (outcome (made + 1)) = true :=
        hret (made + 1) (Nat.le_refl _) (by omega)
      have h200' : outcome (made + 1 + k + 1) = .response 200 t := by
        rw [show made + 1 + k + 1 = made + (k + 1) + 1 by omega]
        exact h200
      have hnext : ∀ le' : Option Nat,
          fetchLoop outcome r (made + 1) le' = .ok t (made + 1 + k + 1) := fun le' =>
        ih r (made + 1) le' (fun i h1 h2 => hret i (by omega) (by omega)) h200' (by omega)
      cases ho : outcome (made + 1) with
      | response code txt =>
        rw [ho] at hmem
        simp only [retryableOutcome, decide_eq_true_eq] at hmem
        have hstep : fetchLoop outcome (r + 1) made le = fetchLoop outcome r (made + 1) le := by
          simp [fetchLoop, ho, retry_code_ne_200 hmem, hmem]
        rw [hstep, hnext le]
        congr 1
        omega
      | transportErr e =>
        have hstep : fetchLoop outcome (r + 1) made le
            = fetchLoop outcome r (made + 1) (some e) := by
          simp [fetchLoop, ho]
        rw [hstep, hnext (some e)]
        congr 1
        omega

theorem fetchLoop_exhaust (outcome : Nat → AttemptOutcome) :
    ∀ (remaining made : Nat) (le : Option Nat),
      (∀ i, made + 1 ≤ i → i ≤ made + remaining → retryableOutcome (outcome i) = true) →
      fetchLoop outcome remaining made le
        = .errExhausted (made + remaining) (lastTransportAux outcome remaining made le) := by
  intro remaining
  induction remaining with
  | zero =>
    intro made le _
    simp [fetchLoop, lastTransportAux]
  | succ r ih =>
    intro made le hret
    have hmem : retryableOutcome (outcome (made + 1)) = true :=
      hret (made + 1) (Nat.le_refl _) (by omega)
    have hnext : ∀ le' : Option Nat,
        fetchLoop outcome r (made + 1) le'
          = .errExhausted (made + 1 + r) (lastTransportAux outcome r (made + 1) le') := fun le' =>
      ih (made + 1) le' (fun i h1 h2 => hret i (by omega) (by omega))
    cases ho : outcome (made + 1) with
    | response code txt =>
      rw [ho] at hmem
      simp only [retryableOutcome, decide_eq_true_eq] at hmem
      have hstep : fetchLoop outcome (r + 1) made le = fetchLoop outcome r (made + 1) le := by
        simp [fetchLoop, ho, retry_code_ne_200 hmem, hmem]
      have haux : lastTransportAux outcome (r + 1) made le
          = lastTransportAux outcome r (made + 1) le := by
        simp [lastTransportAux, ho]
      rw [hstep, hnext le, haux]
      congr 1
      omega
    | transportErr e =>
      have hstep : fetchLoop outcome (r + 1) made le
          = fetchLoop outcome r (made + 1) (some e) := by
        simp [fetchLoop, ho]
      have haux : lastTransportAux outcome (r + 1) made le
          = lastTransportAux outcome r (made + 1) (some e) := by
        simp [lastTransportAux, ho]
      rw [hstep, hnext (some e), haux]
      congr 1
      omega

theorem fetchLoop_nonretryable (outcome : Nat → AttemptOutcome) (code : Nat) (txt : Str)
    (h200 : code ≠ 200) (hnr : code ∉ RETRY_STATUS_CODES) :
    ∀ (k remaining made : Nat) (le : Option Nat),
      (∀ i, made + 1 ≤ i → i ≤ made + k → retryableOutcome (outcome i) = true) →
      outcome (made + k + 1) = .response code txt →
      k < remaining →
      fetchLoop outcome remaining made le = .errNonRetryable code (made + k + 1) := by
  intro k
  induction k with
  | zero =>
    intro remaining made le _ hout hlt
    cases remaining with
    | zero => omega
    | succ r => simp [fetchLoop, hout, h200, hnr]
  | succ k ih =>
    intro remaining made le hret hout hlt
    cases remaining with
    | zero => omega
    | succ r =>
      have hmem : retryableOutcome (outcome (made + 1)) = true :=
        hret (made + 1) (Nat.le_refl _) (by omega)
      have hout' : outcome (made + 1 + k + 1) = .response code txt := by
        rw [show made + 1 + k + 1 = made + (k + 1) + 1 by omega]
        exact hout
      have hnext : ∀ le' : Option Nat,
          fetchLoop outcome r (made + 1) le' = .errNonRetryable code (made + 1 + k + 1) := fun le' =>
        ih r (made + 1) le' (fun i h1 h2 => hret i (by omega) (by omega)) hout' (by omega)
      cases ho : outcome (made + 1) with
      | response c t =>
        rw [ho] at hmem
        simp only [retryableOutcome, decide_eq_true_eq] at hmem
        have hstep : fetchLoop outcome (r + 1) made le = fetchLoop outcome r (made + 1) le := by
          simp [fetchLoop, ho, retry_code_ne_200 hmem, hmem]
        rw [hstep, hnext le]
        congr 1
        omega
      | transportErr e =>
        have hstep : fetchLoop outcome (r + 1) made le
            = fetchLoop outcome r (made + 1) (some e) := by
          simp [fetchLoop, ho]
        rw [hstep, hnext (some e)]
        congr 1
        omega

/-! ## Claims -/

/-- C3, counterexample: the claim that any two (season, league) pairs with
differing normalized forms get different SeasonIDs is false — cleaned
components may contain underscores, so the `"_"` join is ambiguous.  The
pairs ("a b", "c") and ("a", "b c") normalize to the distinct pairs
("a_b", "c") and ("a", "b_c") yet produce the identical identifier
"a_b_c". -/
theorem generate_unit_id_not_injective_on_normalized :
    (clean_for_id "a b".data 0, clean_for_id "c".data 0)
        ≠ (clean_for_id "a".data 0, clean_for_id "b c".data 0)
    ∧ SeasonColumns.generate_id "a b".data "c".data
        = SeasonColumns.generate_id "a".data "b c".data := by
  decide

/-- C3, amended: `SeasonColumns.generate_id` is a deterministic pure
function — identical inputs give identical output — and two input pairs
whose normalized forms differ yield different identifiers provided the
normalized season components have equal length (the extra proviso the
counterexample forces: without it the underscore join can collide). -/
theorem generate_unit_id_deterministic_and_injective
    (s₁ l₁ s₂ l₂ : Str)
    (hlen : (clean_for_id s₁ 0).length = (clean_for_id s₂ 0).length) :
    SeasonColumns.generate_id s₁ l₁ = SeasonColumns.generate_id s₁ l₁
    ∧ ((clean_for_id s₁ 0, clean_for_id l₁ 0) ≠ (clean_for_id s₂ 0, clean_for_id l₂ 0) →
      SeasonColumns.generate_id s₁ l₁ ≠ SeasonColumns.generate_id s₂ l₂) := by
  refine ⟨rfl, fun hne hid => hne ?_⟩
  unfold SeasonColumns.generate_id at hid
  obtain ⟨h₁, h₂⟩ := List.append_inj hid (by simp [hlen])
  have h₃ : clean_for_id s₁ 0 = clean_for_id s₂ 0 := List.append_cancel_right h₁
  rw [h₃, h₂]

theorem generate_unit_id_deterministic_and_injective_witness :
    SeasonColumns.generate_id "x".data "y".data ≠ SeasonColumns.generate_id "x".data "z".data :=
  (generate_unit_id_deterministic_and_injective "x".data "y".data "x".data "z".data
    (by decide)).2 (by decide)

/-- C4: `normalize_string` produces only ASCII characters (diacritics are
decomposed and the non-ASCII remainder dropped, so an umlauted letter
becomes its plain base letter, as the concrete "Müller" → "Muller" and
"Jürgen Müller" → "Jurgen_Muller" instances show), and any input whose
normalized, cleaned, truncated form is empty yields the fixed sentinel
"Unknown" — `clean_for_id` never returns an empty identifier. -/
theorem clean_for_id_unicode_and_sentinel :
    (∀ s : Str, ∀ c ∈ normalize_string s, c.toNat < 128)
    ∧ normalize_string "Müller".data = "Muller".data
    ∧ clean_for_id "Jürgen Müller".data 0 = "Jurgen_Muller".data
    ∧ (∀ (s : Str) (m : Nat), truncateIf m (cleanCore s) = [] → clean_for_id s m = unknownId)
    ∧ (∀ (s : Str) (m : Nat), clean_for_id s m ≠ []) := by
  refine ⟨?_, by decide, by decide, ?_, ?_⟩
  · intro s c hc
    by_cases hs : s = []
    · simp [normalize_string, hs] at hc
    · simp only [normalize_string, hs, if_false, asciiEncodeIgnore, List.mem_filter] at hc
      simpa using hc.2
  · intro s m h
    by_cases hs : s = []
    · simp [clean_for_id, hs]
    · simp [clean_for_id, hs, h]
  · intro s m
    by_cases hs : s = []
    · simp [clean_for_id, hs, unknownId]
    · by_cases h : truncateIf m (cleanCore s) = []
      · simp [clean_for_id, hs, h, unknownId]
      · simp [clean_for_id, hs, h]

theorem clean_for_id_unicode_and_sentinel_witness :
    ('e'.toNat < 128)
    ∧ clean_for_id "!!!".data 3 = unknownId
    ∧ clean_for_id "abc".data 0 ≠ [] :=
  ⟨clean_for_id_unicode_and_sentinel.1 "é".data 'e' (by decide),
   clean_for_id_unicode_and_sentinel.2.2.2.1 "!!!".data 3 (by decide),
   clean_for_id_unicode_and_sentinel.2.2.2.2 "abc".data 0⟩

/-- C10: for every input and every positive `max_length`, `clean_for_id`
returns a non-empty string that either respects the length bound or is
exactly the 7-character sentinel "Unknown" with `max_length < 7` — i.e.
the bound can be exceeded only in the sentinel case, and only for
`max_length < 7`. -/
theorem clean_for_id_length_bound (s : Str) (m : Nat) (hm : 0 < m) :
    clean_for_id s m ≠ []
    ∧ ((clean_for_id s m).length ≤ m ∨ (clean_for_id s m = unknownId ∧ m < 7)) := by
  have hunk : unknownId.length = 7 := by decide
  have hne : unknownId ≠ [] := by decide
  by_cases hs : s = []
  · refine ⟨by simp [clean_for_id, hs, hne], ?_⟩
    by_cases h7 : m < 7
    · exact Or.inr ⟨by simp [clean_for_id, hs], h7⟩
    · exact Or.inl (by simp [clean_for_id, hs, hunk]; omega)
  · by_cases h : truncateIf m (cleanCore s) = []
    · refine ⟨by simp [clean_for_id, hs, h, hne], ?_⟩
      by_cases h7 : m < 7
      · exact Or.inr ⟨by simp [clean_for_id, hs, h], h7⟩
      · exact Or.inl (by simp [clean_for_id, hs, h, hunk]; omega)
    · refine ⟨by simp [clean_for_id, hs, h], Or.inl ?_⟩
      have : (truncateIf m (cleanCore s)).length ≤ m := by
        simp only [truncateIf, hm, if_pos]
        exact List.length_take_le m (cleanCore s)
      simpa [clean_for_id, hs, h] using this

theorem clean_for_id_length_bound_witness :
    clean_for_id "abcdef".data 3 ≠ []
    ∧ ((clean_for_id "abcdef".data 3).length ≤ 3
        ∨ (clean_for_id "abcdef".data 3 = unknownId ∧ 3 < 7)) :=
  clean_for_id_length_bound "abcdef".data 3 (by decide)

/-- C8, counterexample: the claim that `ScheduleColumns.generate_id`
embeds clean-of-truncation (the participant name truncated to 15
characters BEFORE normalization) is false: on a home-team name whose
16th normalized character survives cleaning while an earlier character
is stripped, the source's GameID differs from the clean-of-truncation
variant. -/
theorem game_id_truncation_order_counterexample :
    ScheduleColumns.generate_id "2025-10-03".data "aaaaaaaaaaaaaa!bb".data
        "v".data "2024-25".data "L".data
      ≠ ScheduleColumns.generate_id_truncFirst "2025-10-03".data "aaaaaaaaaaaaaa!bb".data
        "v".data "2024-25".data "L".data := by
  decide

/-- C8, amended: in the GameID each participant name component is the
text normalization applied FIRST with the 15-character truncation applied
to the normalized form (truncation-of-clean): whenever the cleaned form
is non-empty, `clean_for_id name 15` equals the untruncated
`clean_for_id name 0` cut to its first 15 characters. -/
theorem game_id_truncates_after_normalization
    (gameDate homeTeam visitorTeam season league : Str) :
    ScheduleColumns.generate_id gameDate homeTeam visitorTeam season league
      = cleanGameDate gameDate ++ usep ++ clean_for_id homeTeam 15 ++ vsSep ++
        clean_for_id visitorTeam 15 ++ usep ++ clean_for_id season ++ usep ++
        clean_for_id league 15
    ∧ (∀ name : Str, cleanCore name ≠ [] →
        clean_for_id name 15 = (clean_for_id name 0).take 15) := by
  refine ⟨rfl, fun name h => ?_⟩
  rw [clean_for_id_zero_eq_cleanCore name h, clean_for_id_pos_eq_take name h]

theorem game_id_truncates_after_normalization_witness :
    clean_for_id "aaaaaaaaaaaaaa!bb".data 15
      = (clean_for_id "aaaaaaaaaaaaaa!bb".data 0).take 15 :=
  (game_id_truncates_after_normalization [] "aaaaaaaaaaaaaa!bb".data [] [] []).2
    "aaaaaaaaaaaaaa!bb".data (by decide)

/-- C1: for `fetch_data` with maximum attempts `M`, if the first `k`
attempts (`k < M`) each observe a retryable HTTP status or a
transport-level error and attempt `k+1` observes a 200 response, the
response text is returned after exactly `k+1` request attempts; if all
`M` attempts observe retryable statuses or transport errors, a
`FetchError` is raised after exactly `M` attempts, chaining the last
underlying transport-level error (`raise ... from last_exc`) as cause. -/
theorem fetch_data_retry_termination (outcome : Nat → AttemptOutcome)
    (M k : Nat) (t : Str) :
    (k < M → (∀ i ∈ List.range' 1 k, retryableOutcome (outcome i) = true) →
      outcome (k + 1) = .response 200 t →
      fetch_data outcome M = .ok t (k + 1))
    ∧ ((∀ i ∈ List.range' 1 M, retryableOutcome (outcome i) = true) →
      fetch_data outcome M = .errExhausted M (lastTransportErr outcome M)) := by
  constructor
  · intro hk hret h200
    have hret' : ∀ i, 0 + 1 ≤ i → i ≤ 0 + k → retryableOutcome (outcome i) = true := by
      intro i h1 h2
      exact hret i (List.mem_range'_1.mpr ⟨by omega, by omega⟩)
    have h200' : outcome (0 + k + 1) = .response 200 t := by
      rw [show 0 + k + 1 = k + 1 by omega]
      exact h200
    have hrun := fetchLoop_ok outcome t k M 0 none hret' h200' hk
    show fetchLoop outcome M 0 none = .ok t (k + 1)
    rw [hrun]
    congr 1
    omega
  · intro hret
    have hret' : ∀ i, 0 + 1 ≤ i → i ≤ 0 + M → retryableOutcome (outcome i) = true := by
      intro i h1 h2
      exact hret i (List.mem_range'_1.mpr ⟨by omega, by omega⟩)
    have hrun := fetchLoop_exhaust outcome M 0 none hret'
    show fetchLoop outcome M 0 none = .errExhausted M (lastTransportErr outcome M)
    rw [hrun, lastTransportErr]
    congr 1
    omega

theorem fetch_data_retry_termination_witness :
    fetch_data (fun i => if i = 2 then .response 200 "ok".data else .response 500 []) 3
        = .ok "ok".data 2
    ∧ fetch_data (fun i => if i = 1 then .transportErr 5 else .response 503 []) 3
        = .errExhausted 3
            (lastTransportErr (fun i => if i = 1 then .transportErr 5 else .response 503 []) 3) :=
  ⟨(fetch_data_retry_termination
      (fun i => if i = 2 then .response 200 "ok".data else .response 500 []) 3 1 "ok".data).1
      (by decide) (by decide) (by decide),
   (fetch_data_retry_termination
      (fun i => if i = 1 then .transportErr 5 else .response 503 []) 3 3 []).2 (by decide)⟩

/-- C5: if an attempt of `fetch_data` observes an HTTP status that is
neither 200 nor in the retryable set {429, 500, 502, 503, 504}, the
fetcher fails immediately with a `FetchError` after that attempt — the
total number of request attempts equals the index of that attempt, so no
further attempts are made. -/
theorem fetch_data_nonretryable_short_circuit (outcome : Nat → AttemptOutcome)
    (M k code : Nat) (txt : Str)
    (hk : k < M)
    (hret : ∀ i ∈ List.range' 1 k, retryableOutcome (outcome i) = true)
    (hout : outcome (k + 1) = .response code txt)
    (h200 : code ≠ 200)
    (hnr : code ∉ RETRY_STATUS_CODES) :
    fetch_data outcome M = .errNonRetryable code (k + 1) := by
  have hret' : ∀ i, 0 + 1 ≤ i → i ≤ 0 + k → retryableOutcome (outcome i) = true := by
    intro i h1 h2
    exact hret i (List.mem_range'_1.mpr ⟨by omega, by omega⟩)
  have hout' : outcome (0 + k + 1) = .response code txt := by
    rw [show 0 + k + 1 = k + 1 by omega]
    exact hout
  have hrun := fetchLoop_nonretryable outcome code txt h200 hnr k M 0 none hret' hout' hk
  show fetchLoop outcome M 0 none = .errNonRetryable code (k + 1)
  rw [hrun]
  congr 1
  omega

theorem fetch_data_nonretryable_short_circuit_witness :
    fetch_data (fun _ => .response 404 "missing".data) 3 = .errNonRetryable 404 1 :=
  fetch_data_nonretryable_short_circuit (fun _ => .response 404 "missing".data) 3 0 404
    "missing".data (by decide) (by decide) (by decide) (by decide) (by decide)

theorem writeChunksFuel_append {ρ : Type} (chunkSize : Nat) (hcs : 0 < chunkSize) :
    ∀ (fuel : Nat) (df table : List ρ) (written : Nat),
      df.length ≤ fuel →
      writeChunksFuel chunkSize fuel table df .append written
        = (table ++ df, written + df.length) := by
  intro fuel
  induction fuel with
  | zero =>
    intro df table written hlen
    have : df = [] := List.eq_nil_of_length_eq_zero (by omega)
    subst this
    simp [writeChunksFuel]
  | succ fuel ih =>
    intro df table written hlen
    cases df with
    | nil => simp [writeChunksFuel]
    | cons r rest =>
      have hsplit : (r :: rest).take chunkSize ++ (r :: rest).drop chunkSize = r :: rest :=
        List.take_append_drop chunkSize (r :: rest)
      have hlen' : ((r :: rest).drop chunkSize).length ≤ fuel := by
        simp only [List.length_drop, List.length_cons]
        simp only [List.length_cons] at hlen
        omega
      have hrec := ih ((r :: rest).drop chunkSize)
        (table ++ (r :: rest).take chunkSize)
        (written + ((r :: rest).take chunkSize).length) hlen'
      simp only [writeChunksFuel, toSql, hrec]
      simp only [Prod.mk.injEq]
      constructor
      · rw [List.append_assoc, hsplit]
      · have := congrArg List.length hsplit
        simp only [List.length_append] at this
        simp only [List.length_cons] at this ⊢
        omega

theorem writeChunksFuel_replace {ρ : Type} (chunkSize : Nat) (hcs : 0 < chunkSize)
    (fuel : Nat) (df : List ρ) (table : List ρ) (written : Nat)
    (hlen : df.length ≤ fuel) (hne : df ≠ []) :
    writeChunksFuel chunkSize fuel table df .replace written = (df, written + df.length) := by
  cases df with
  | nil => exact absurd rfl hne
  | cons r rest =>
    cases fuel with
    | zero => simp at hlen
    | succ fuel =>
      have hsplit : (r :: rest).take chunkSize ++ (r :: rest).drop chunkSize = r :: rest :=
        List.take_append_drop chunkSize (r :: rest)
      have hlen' : ((r :: rest).drop chunkSize).length ≤ fuel := by
        simp only [List.length_drop, List.length_cons]
        simp only [List.length_cons] at hlen
        omega
      have hrec := writeChunksFuel_append chunkSize hcs fuel ((r :: rest).drop chunkSize)
        ((r :: rest).take chunkSize) (written + ((r :: rest).take chunkSize).length) hlen'
      simp only [writeChunksFuel, toSql, hrec]
      simp only [Prod.mk.injEq]
      constructor
      · exact hsplit
      · have := congrArg List.length hsplit
        simp only [List.length_append] at this
        simp only [List.length_cons] at this ⊢
        omega

theorem write_dataframe_replace {ρ : Type} (table df : List ρ) (chunkSize : Nat)
    (hcs : 0 < chunkSize) (hne : df ≠ []) :
    write_dataframe table df chunkSize .replace = (df, df.length) := by
  have hempty : df.isEmpty = false := by
    cases df with
    | nil => exact absurd rfl hne
    | cons r rest => rfl
  rw [write_dataframe, hempty]
  simp only [Bool.false_eq_true, if_false]
  have := writeChunksFuel_replace chunkSize hcs df.length df table 0 (Nat.le_refl _) hne
  rw [this]
  simp

/-- C2: for every DataFrame with more rows than the chunk size, each of
the three save operations (`save_seasons` / `save_schedules` /
`save_boxscores`) in replace mode writes the data in chunks of which only
the first replaces and all later ones append, so regardless of the
store's previous contents the backing table ends up holding exactly the
keyed input rows — exactly the input row count, not a multiple of it —
and `rows_written` equals the input row count. -/
theorem save_chunked_replace_exact
    (t1 : List KeyedSeasonRow) (t2 : List KeyedScheduleRow) (t3 : List KeyedBoxscoreRow)
    (d1 : List SeasonRow) (d2 : List ScheduleRow) (d3 : List BoxscoreRow)
    (cs : Nat) (hcs : 0 < cs)
    (h1 : cs < d1.length) (h2 : cs < d2.length) (h3 : cs < d3.length) :
    save_seasons t1 d1 cs .replace = (d1.map addSeasonId, d1.length)
    ∧ save_schedules t2 d2 cs .replace = (d2.map addScheduleIds, d2.length)
    ∧ save_boxscores t3 d3 cs .replace = (d3.map addBoxscoreIds, d3.length) := by
  refine ⟨?_, ?_, ?_⟩
  · have hne : d1 ≠ [] := by
      intro h
      subst h
      simp at h1
    have hempty : d1.isEmpty = false := by
      cases d1 with
      | nil => exact absurd rfl hne
      | cons r rest => rfl
    have hmapne : d1.map addSeasonId ≠ [] := by
      simpa using hne
    rw [save_seasons, hempty]
    simp only [Bool.false_eq_true, if_false]
    rw [write_dataframe_replace t1 (d1.map addSeasonId) cs hcs hmapne]
    simp
  · have hne : d2 ≠ [] := by
      intro h
      subst h
      simp at h2
    have hempty : d2.isEmpty = false := by
      cases d2 with
      | nil => exact absurd rfl hne
      | cons r rest => rfl
    have hmapne : d2.map addScheduleIds ≠ [] := by
      simpa using hne
    rw [save_schedules, hempty]
    simp only [Bool.false_eq_true, if_false]
    rw [write_dataframe_replace t2 (d2.map addScheduleIds) cs hcs hmapne]
    simp
  · have hne : d3 ≠ [] := by
      intro h
      subst h
      simp at h3
    have hempty : d3.isEmpty = false := by
      cases d3 with
      | nil => exact absurd rfl hne
      | cons r rest => rfl
    have hmapne : d3.map addBoxscoreIds ≠ [] := by
      simpa using hne
    rw [save_boxscores, hempty]
    simp only [Bool.false_eq_true, if_false]
    rw [write_dataframe_replace t3 (d3.map addBoxscoreIds) cs hcs hmapne]
    simp

theorem save_chunked_replace_exact_witness :
    save_seasons [⟨"old".data, ⟨"o".data, "o".data⟩⟩]
        [⟨"a".data, "b".data⟩, ⟨"c".data, "d".data⟩, ⟨"e".data, "f".data⟩] 2 .replace
      = ([⟨"a".data, "b".data⟩, ⟨"c".data, "d".data⟩, ⟨"e".data, "f".data⟩].map addSeasonId, 3) :=
  (save_chunked_replace_exact [⟨"old".data, ⟨"o".data, "o".data⟩⟩] [] []
    [⟨"a".data, "b".data⟩, ⟨"c".data, "d".data⟩, ⟨"e".data, "f".data⟩]
    [⟨"d".data, "h".data, "v".data, "s".data, "l".data⟩,
     ⟨"d".data, "h".data, "v".data, "s".data, "m".data⟩,
     ⟨"d".data, "h".data, "v".data, "s".data, "n".data⟩]
    [⟨"p".data, "t".data, "u".data, "s".data, "l".data⟩,
     ⟨"q".data, "t".data, "u".data, "s".data, "l".data⟩,
     ⟨"r".data, "t".data, "u".data, "s".data, "l".data⟩]
    2 (by decide) (by decide) (by decide) (by decide)).1

theorem maskSelect_map_filter {α : Type} (p : α → Bool) :
    ∀ l : List α, maskSelect l (l.map p) = l.filter p := by
  intro l
  induction l with
  | nil => rfl
  | cons a rest ih =>
    by_cases h : p a = true
    · simp [maskSelect, List.filter_cons, h, ih]
    · simp only [Bool.not_eq_true] at h
      simp [maskSelect, List.filter_cons, h, ih]

/-- C7: the schedule-table row filter keeps exactly the rows whose date
cell parses (`_parse_game_date` returns a value), silently drops every
other row (the operation is total — no error path), and, being a
sublist selection, preserves the relative order of the surviving rows.
Holds for every mix of parseable and unparseable date cells and every
`pd.to_datetime` behaviour `toDatetime`. -/
theorem schedule_row_filter_keeps_parseable (toDatetime : Str → Option Nat)
    (rows : List RawScheduleRow) :
    scheduleRowFilter toDatetime rows
        = rows.filter (fun r => (parse_game_date toDatetime r.dateCell).isSome)
    ∧ (scheduleRowFilter toDatetime rows).Sublist rows := by
  have hmain : scheduleRowFilter toDatetime rows
      = rows.filter (fun r => (parse_game_date toDatetime r.dateCell).isSome) := by
    rw [scheduleRowFilter, List.map_map]
    exact maskSelect_map_filter _ rows
  exact ⟨hmain, hmain ▸ List.filter_sublist rows⟩

/-- C9, counterexample: the claim that within one
`scrape_boxscore_tables` run the fetcher is invoked at most once per
unique detail-page URL — "including when the first fetch of that URL
failed" — is false: a failed fetch is not inserted into `html_cache`
(only `skipped_dates` grows), so a later row with the same URL triggers a
second `fetch_data` call.  With two rows sharing one URL whose fetch
always fails, the fetch count is 2. -/
theorem boxscore_cache_refetches_failed_url :
    fetchCount "u".data ((scrape_boxscore_fetches (β := Unit) (fun _ => none)
        [⟨some "u".data⟩, ⟨some "u".data⟩]).fetchLog) = 2
    ∧ ¬ (fetchCount "u".data ((scrape_boxscore_fetches (β := Unit) (fun _ => none)
        [⟨some "u".data⟩, ⟨some "u".data⟩]).fetchLog) ≤ 1) := by
  decide

/-- C9, amended: within a single `scrape_boxscore_tables` run, every
unique detail-page URL whose fetch succeeds is fetched at most once —
after the first successful fetch the URL is in `html_cache` and all later
rows referencing it are served from the cache.  (A URL whose fetch fails
is not cached and may be re-fetched by later rows, as the counterexample
shows.) -/
theorem boxscore_cache_fetch_once_on_success {β : Type} (env : Str → Option β)
    (rows : List BoxFetchRow) (url : Str) (b : β) (henv : env url = some b) :
    fetchCount url ((scrape_boxscore_fetches env rows).fetchLog) ≤ 1 := by
  have key : ∀ (rs : List BoxFetchRow) (st : BoxScrapeState β),
      ((fetchCount url st.fetchLog = 0 ∧ cacheFind st.cache url = none)
        ∨ (fetchCount url st.fetchLog ≤ 1 ∧ (cacheFind st.cache url).isSome = true)) →
      ((fetchCount url (rs.foldl (boxScrapeStep env) st).fetchLog = 0
          ∧ cacheFind (rs.foldl (boxScrapeStep env) st).cache url = none)
        ∨ (fetchCount url (rs.foldl (boxScrapeStep env) st).fetchLog ≤ 1
          ∧ (cacheFind (rs.foldl (boxScrapeStep env) st).cache url).isSome = true)) := by
    intro rs
    induction rs with
    | nil => intro st hinv; exact hinv
    | cons row rest ih =>
      intro st hinv
      rw [List.foldl_cons]
      apply ih
      cases hurl : row.dateUrl with
      | none => simpa [boxScrapeStep, hurl] using hinv
      | some u =>
        by_cases hc : (cacheFind st.cache u).isSome = true
        · simpa [boxScrapeStep, hurl, hc] using hinv
        · by_cases hu : u = url
          · subst hu
            rcases hinv with ⟨hcnt, _⟩ | ⟨_, hsome⟩
            · simp only [boxScrapeStep, hurl, hc, if_false, henv]
              refine Or.inr ⟨?_, ?_⟩
              · simp only [fetchCount, List.filter_append] at hcnt ⊢
                simp [hcnt]
              · simp [cacheFind]
            · exact absurd hsome hc
          · rcases hinv with ⟨hcnt, hnone⟩ | ⟨hcnt, hsome⟩
            · cases he : env u with
              | some tables =>
                simp only [boxScrapeStep, hurl, hc, if_false, he]
                refine Or.inl ⟨?_, ?_⟩
                · simp only [fetchCount, List.filter_append] at hcnt ⊢
                  simp [hcnt, hu]
                · simpa [cacheFind, hu] using hnone
              | none =>
                simp only [boxScrapeStep, hurl, hc, if_false, he]
                refine Or.inl ⟨?_, hnone⟩
                simp only [fetchCount, List.filter_append] at hcnt ⊢
                simp [hcnt, hu]
            · cases he : env u with
              | some tables =>
                simp only [boxScrapeStep, hurl, hc, if_false, he]
                refine Or.inr ⟨?_, ?_⟩
                · simp only [fetchCount, List.filter_append] at hcnt ⊢
                  simpa [hu] using hcnt
                · simpa [cacheFind, hu] using hsome
              | none =>
                simp only [boxScrapeStep, hurl, hc, if_false, he]
                refine Or.inr ⟨?_, hsome⟩
                simp only [fetchCount, List.filter_append] at hcnt ⊢
                simpa [hu] using hcnt
  have hstart : (fetchCount url (⟨[], [], []⟩ : BoxScrapeState β).fetchLog = 0
      ∧ cacheFind (⟨[], [], []⟩ : BoxScrapeState β).cache url = none)
      ∨ (fetchCount url (⟨[], [], []⟩ : BoxScrapeState β).fetchLog ≤ 1
      ∧ (cacheFind (⟨[], [], []⟩ : BoxScrapeState β).cache url).isSome = true) := by
    exact Or.inl ⟨rfl, rfl⟩
  rcases key rows ⟨[], [], []⟩ hstart with ⟨hcnt, _⟩ | ⟨hcnt, _⟩
  · rw [scrape_boxscore_fetches]
    omega
  · exact hcnt

theorem boxscore_cache_fetch_once_on_success_witness :
    fetchCount "u".data ((scrape_boxscore_fetches (β := Unit) (fun _ => some ())
        [⟨some "u".data⟩, ⟨some "u".data⟩]).fetchLog) ≤ 1 :=
  boxscore_cache_fetch_once_on_success (fun _ => some ())
    [⟨some "u".data⟩, ⟨some "u".data⟩] "u".data () rfl

/-- C6, counterexample: the claim that a failure to establish the primary
configured store always triggers the SQLite fallback is false when the
primary URL is itself a SQLite URL: `_initialize_engine_with_fallback`
only appends the fallback candidate when the primary does not start with
"sqlite", so a failing SQLite primary raises immediately even though the
fallback would have succeeded (the environment below fails only on the
primary URL). -/
theorem init_fallback_not_attempted_for_sqlite_primary :
    initialize_engine_with_fallback
        (fun u _ => if u = "sqlite:///p".data then some 7 else none)
        "sqlite:///p".data (some "bball".data) "sqlite:///f".data
      = .runtimeError (some 7)
    ∧ initialize_engine_with_fallback
        (fun u _ => if u = "sqlite:///p".data then some 7 else none)
        "sqlite:///p".data (some "bball".data) "sqlite:///f".data
      ≠ .ok ⟨"sqlite:///f".data, none⟩ := by
  decide

/-- C6, amended: at persistence-layer initialization, if the primary
store connects the engine is established with the configured schema; if
the primary is NOT itself a SQLite URL and fails, the store falls back to
the local embedded SQLite store with the schema qualifier cleared to
`None`; and initialization raises `RuntimeError` chaining the last
underlying error when the primary is a SQLite URL and fails, or when both
the primary and the fallback fail. -/
theorem init_fallback_behaviour (connectErr : Str → Option Str → Option Nat)
    (primaryUrl fallbackUrl : Str) (schema : Option Str) (e e₂ : Nat) :
    (connectErr primaryUrl schema = none →
      initialize_engine_with_fallback connectErr primaryUrl schema fallbackUrl
        = .ok ⟨primaryUrl, schema⟩)
    ∧ (startsWithSqlite primaryUrl = false →
      connectErr primaryUrl schema = some e →
      connectErr fallbackUrl none = none →
      initialize_engine_with_fallback connectErr primaryUrl schema fallbackUrl
        = .ok ⟨fallbackUrl, none⟩)
    ∧ (startsWithSqlite primaryUrl = false →
      connectErr primaryUrl schema = some e →
      connectErr fallbackUrl none = some e₂ →
      initialize_engine_with_fallback connectErr primaryUrl schema fallbackUrl
        = .runtimeError (some e₂))
    ∧ (startsWithSqlite primaryUrl = true →
      connectErr primaryUrl schema = some e →
      initialize_engine_with_fallback connectErr primaryUrl schema fallbackUrl
        = .runtimeError (some e)) := by
  refine ⟨?_, ?_, ?_, ?_⟩
  · intro h
    simp [initialize_engine_with_fallback, candidateList, initLoop, h]
  · intro hsq hp hf
    simp [initialize_engine_with_fallback, candidateList, initLoop, hsq, hp, hf]
  · intro hsq hp hf
    simp [initialize_engine_with_fallback, candidateList, initLoop, hsq, hp, hf]
  · intro hsq hp
    simp [initialize_engine_with_fallback, candidateList, initLoop, hsq, hp]

theorem init_fallback_behaviour_witness :
    initialize_engine_with_fallback
        (fun u _ => if u = "postgresql://p".data then some 7 else none)
        "postgresql://p".data (some "bball".data) "sqlite:///f".data
      = .ok ⟨"sqlite:///f".data, none⟩
    ∧ initialize_engine_with_fallback (fun _ _ => some 9)
        "postgresql://p".data (some "bball".data) "sqlite:///f".data
      = .runtimeError (some 9) :=
  ⟨(init_fallback_behaviour
      (fun u _ => if u = "postgresql://p".data then some 7 else none)
      "postgresql://p".data "sqlite:///f".data (some "bball".data) 7 0).2.1
      (by decide) (by decide) (by decide),
   (init_fallback_behaviour (fun _ _ => some 9)
      "postgresql://p".data "sqlite:///f".data (some "bball".data) 9 9).2.2.1
      (by decide) (by decide) (by decide)⟩

end BasketballHoops
